import Mathlib

/-!
Verification of the FlightTracker data pipeline: the Flightradar24 ingestion
normalizer (src/services/aviationService.ts), the time-window and search
derivation engine (src/App.tsx, with the earlier variant in
src/unnamed/part_000) and the live-marker reconciliation
(src/components/MapView.tsx / src/unnamed/part_001).

Conventions of the shallow embedding:
* JavaScript numbers that the code treats as integers (epoch seconds and
  millisecond instants, minutes, degrees, metres) are modelled as `Int`.
* A nullable / possibly-absent field is `Option _`; JavaScript truthiness is
  modelled explicitly: a number is falsy exactly when it is absent or `0`, a
  string exactly when it is absent or `""`.
* An ISO timestamp string produced by `new Date(ms).toISOString()` is
  modelled by the instant `ms` itself; such a string is never empty, so it is
  always truthy, which the model renders as `some ms` (`some 0` for the
  epoch). `none` models `null` or the empty string.
* `Math.round(d / 60000)` for the integer `d` is `(d + 30000).fdiv 60000`
  (floor of `d / 60000 + 1/2`, which is how JavaScript rounds, halves up).
-/

namespace FlightTracker

/-- Substring test on character lists: `headMatch p l` holds when `p` begins `l`. -/
def headMatch : List Char → List Char → Bool
  | [], _ => true
  | _ :: _, [] => false
  | a :: as, b :: bs => a == b && headMatch as bs

/-- Substring occurrence on character lists: `subList p l` holds when `p`
occurs contiguously inside `l`. -/
def subList : List Char → List Char → Bool
  | p, [] => p.isEmpty
  | p, c :: cs => headMatch p (c :: cs) || subList p cs

/-- Model of `s.toLowerCase()` for the ASCII strings this code handles,
written over the character list so that it evaluates by kernel reduction. -/
def jsToLower (s : String) : String :=
  String.mk (s.data.map Char.toLower)

/-- Model of `hay.includes(pat)` on JavaScript strings. -/
def jsIncludes (hay pat : String) : Bool :=
  subList pat.toList hay.toList

/-- Model of `x || d` where `x` is a nullable number: `0` is falsy. -/
def jsOrI (x : Option Int) (d : Int) : Int :=
  match x with
  | some v => if v = 0 then d else v
  | none => d

/-- Model of `x || d` where `x` is a nullable string: `""` is falsy. -/
def jsOrS (x : Option String) (d : String) : String :=
  match x with
  | some s => if s = "" then d else s
  | none => d

/-- Model of `a || b` on two plain strings. -/
def jsOrStr (a b : String) : String :=
  if a = "" then b else a

/-- Model of `x || null` on a nullable string, as stored into a nullable field. -/
def jsOrNull (x : Option String) : Option String :=
  match x with
  | some s => if s = "" then none else some s
  | none => none

/-- Model of `a || b` on two nullable instants stored as ISO strings: a
present string is non-empty, hence truthy, even for the epoch instant. -/
def jsOrOpt (a b : Option Int) : Option Int :=
  match a with
  | some v => some v
  | none => b

/-- Truthiness of a nullable number. -/
def jsTruthyNum (x : Option Int) : Bool :=
  match x with
  | some v => decide (v ≠ 0)
  | none => false

/-- The internal status enumeration (FlightStatus in src/types). -/
inductive FlightStatus where
  | SCHEDULED
  | ACTIVE
  | LANDED
  | CANCELLED
  | DIVERTED
  | BOARDING
  | ON_GROUND
deriving DecidableEq, Repr

/-- The time block of one raw Flightradar24 schedule item (`item.flight.time`),
all fields epoch seconds, each possibly absent. -/
structure RawTimes where
  scheduledArrival : Option Int
  scheduledDeparture : Option Int
  estimatedArrival : Option Int
  estimatedDeparture : Option Int
  realArrival : Option Int
  realDeparture : Option Int
  otherEta : Option Int
deriving DecidableEq, Repr

/-- One raw Flightradar24 schedule item (`item.flight`), flattened to the
fields the normalizer reads; every optional chain `a?.b?.c` is one field. -/
structure RawFlight where
  statusText : Option String
  time : RawTimes
  originCity : Option String
  originName : Option String
  originIata : Option String
  originIcao : Option String
  originTzName : Option String
  originTerminal : Option String
  originGate : Option String
  destTerminal : Option String
  destGate : Option String
  destBaggage : Option String
  airlineName : Option String
  airlineIata : Option String
  airlineIcao : Option String
  identNumber : Option String
  codeshare : Option String
  aircraftRegistration : Option String
  aircraftModelCode : Option String
deriving DecidableEq, Repr

/-- One side (departure or arrival) of the canonical flight record. Instants
are millisecond values standing for the ISO strings the code stores. -/
structure EndpointInfo where
  airport : String
  timezone : String
  iata : String
  icao : String
  terminal : Option String
  gate : Option String
  baggage : Option String
  delay : Option Int
  scheduled : Option Int
  estimated : Option Int
  actual : Option Int
deriving DecidableEq, Repr

/-- Airline block of the canonical record. -/
structure AirlineInfo where
  name : String
  iata : String
  icao : String
deriving DecidableEq, Repr

/-- Flight identification block of the canonical record. -/
structure FlightNumberInfo where
  number : String
  iata : String
  icao : String
  codeshared : Option String
deriving DecidableEq, Repr

/-- Aircraft block of the canonical record. -/
structure AircraftInfo where
  registration : String
  iata : String
  icao : String
  icao24 : String
deriving DecidableEq, Repr

/-- Live telemetry block (`flight.live`), nullable numbers throughout. -/
structure LiveTelemetry where
  latitude : Option Int
  longitude : Option Int
  direction : Option Int
  altitude : Option Int
  speedHorizontal : Option Int
deriving DecidableEq, Repr

/-- The canonical flight record (FlightData in src/types). `flightDate`
stands for the calendar-date string as days since the epoch. -/
structure FlightData where
  flightDate : Int
  flightStatus : FlightStatus
  departure : EndpointInfo
  arrival : EndpointInfo
  airline : AirlineInfo
  flight : FlightNumberInfo
  aircraft : AircraftInfo
  live : Option LiveTelemetry
deriving DecidableEq, Repr

/-! ## Ingestion normalizer (Flightradar24 variant of fetchArrivals) -/

/-- Status mapping of the normalizer, aviationService.ts lines 71 to 78:
lower-case the free-text status and test substrings in a fixed order. -/
def normalizeStatus (raw : String) : FlightStatus :=
  let rawStatus := jsToLower raw
  if jsIncludes rawStatus "landed" then .LANDED
  else if jsIncludes rawStatus "cancelled" then .CANCELLED
  else if jsIncludes rawStatus "diverted" then .DIVERTED
  else if jsIncludes rawStatus "estimated" || jsIncludes rawStatus "delayed"
       || jsIncludes rawStatus "active" then .ACTIVE
  else .SCHEDULED

/-- Scheduled arrival instant: `(f.time?.scheduled?.arrival || 0) * 1000`. -/
def scheduledArrMs (f : RawFlight) : Int :=
  jsOrI f.time.scheduledArrival 0 * 1000

/-- Estimated arrival instant:
`(f.time?.estimated?.arrival || f.time?.other?.eta || scheduledArr) * 1000`.
Note that `scheduledArr` in the source chain is already in milliseconds and
is multiplied by 1000 again when the first two candidates are falsy; the
model keeps that behaviour. -/
def estimatedArrMs (f : RawFlight) : Int :=
  jsOrI f.time.estimatedArrival (jsOrI f.time.otherEta (scheduledArrMs f)) * 1000

/-- Actual arrival instant: `f.time?.real?.arrival ? f.time.real.arrival * 1000 : null`. -/
def actualArrMs (f : RawFlight) : Option Int :=
  match f.time.realArrival with
  | some v => if v = 0 then none else some (v * 1000)
  | none => none

/-- Arrival delay, aviationService.ts lines 85 to 88: rounded minutes when
the estimated instant is strictly later than the scheduled one, else null. -/
def arrivalDelayMinutes (f : RawFlight) : Option Int :=
  if estimatedArrMs f > scheduledArrMs f then
    some ((estimatedArrMs f - scheduledArrMs f + 30000).fdiv 60000)
  else
    none

/-- Origin display name candidates: city, then airport name, then IATA code. -/
def originDisplayName (f : RawFlight) : String :=
  jsOrS f.originCity (jsOrS f.originName (jsOrS f.originIata ""))

/-- The per-item normalizer of the Flightradar24 fetchArrivals, the body of
`arrivals.map` in aviationService.ts lines 68 to 147. -/
def normalizeFlight (f : RawFlight) : FlightData :=
  { flightDate := (scheduledArrMs f).fdiv 86400000
    flightStatus := normalizeStatus (jsOrS f.statusText "")
    departure :=
      { airport := jsOrStr (originDisplayName f) "Unknown Origin"
        timezone := jsOrS f.originTzName "UTC"
        iata := jsOrS f.originIata ""
        icao := jsOrS f.originIcao ""
        terminal := jsOrNull f.originTerminal
        gate := jsOrNull f.originGate
        baggage := none
        delay := none
        scheduled := some (jsOrI f.time.scheduledDeparture 0 * 1000)
        estimated := some (jsOrI f.time.estimatedDeparture 0 * 1000)
        actual :=
          match f.time.realDeparture with
          | some v => if v = 0 then none else some (v * 1000)
          | none => none }
    arrival :=
      { airport := "Zurich"
        timezone := "Europe/Zurich"
        iata := "ZRH"
        icao := "LSZH"
        terminal := jsOrNull f.destTerminal
        gate := jsOrNull f.destGate
        baggage := jsOrNull f.destBaggage
        delay := arrivalDelayMinutes f
        scheduled := some (scheduledArrMs f)
        estimated := some (estimatedArrMs f)
        actual := actualArrMs f }
    airline :=
      { name := jsOrS f.airlineName "Unknown Airline"
        iata := jsOrS f.airlineIata ""
        icao := jsOrS f.airlineIcao "" }
    flight :=
      { number := jsOrS f.identNumber ""
        iata := jsOrS f.identNumber ""
        icao := ""
        codeshared := jsOrNull f.codeshare }
    aircraft :=
      { registration := jsOrS f.aircraftRegistration ""
        iata := jsOrS f.aircraftModelCode ""
        icao := ""
        icao24 := "" }
    live := none }

/-! ## Response envelopes of the two adapters -/

/-- A JSON field as each adapter inspects it: absent, null, scalar or an
array whose elements are already decoded to `α`. -/
inductive JsonField (α : Type) where
  | absent
  | nullv
  | boolv (b : Bool)
  | numv (n : Int)
  | strv (s : String)
  | arrv (xs : List α)
deriving DecidableEq, Repr

/-- JavaScript truthiness of a JSON field. -/
def JsonField.truthy {α : Type} : JsonField α → Bool
  | .absent => false
  | .nullv => false
  | .boolv b => b
  | .numv n => decide (n ≠ 0)
  | .strv s => decide (s ≠ "")
  | .arrv _ => true

/-- Model of `Array.isArray`. -/
def JsonField.isArray {α : Type} : JsonField α → Bool
  | .arrv _ => true
  | _ => false

/-- The error taxonomy of the ingestion step that is visible past the JSON
parse: the provider-reported error envelope and the schema mismatch. -/
inductive FetchError where
  | providerError (message : String)
  | malformedResponse
deriving DecidableEq, Repr

/-- The Flightradar24 fetchArrivals after the JSON parse, aviationService.ts
lines 61 to 147, applied to the extracted
`result.response.airport.pluginData.schedule.arrivals.data` field:
`if (!arrivals || !Array.isArray(arrivals)) throw`, else map the items. -/
def fetchArrivalsFr24 (arrivals : JsonField RawFlight) : Except FetchError (List FlightData) :=
  if !arrivals.truthy || !arrivals.isArray then
    .error .malformedResponse
  else
    match arrivals with
    | .arrv xs => .ok (xs.map normalizeFlight)
    | _ => .error .malformedResponse

/-- The provider error envelope of the AviationStack payload. -/
structure ProviderErrorInfo where
  message : Option String
  code : Option String
deriving DecidableEq, Repr

/-- The AviationStack payload as the adapter inspects it: an optional error
envelope and the `data` field, unchecked beyond truthiness. -/
structure AviationStackPayload (α : Type) where
  error : Option ProviderErrorInfo
  data : JsonField α
deriving DecidableEq, Repr

/-- The AviationStack fetchArrivals after the JSON parse, aviationService.ts
lines 25 to 35: an error envelope throws; `if (!json.data) return [];` else
the data field is returned as-is, cast but never checked to be an array. -/
def fetchArrivalsAviationStack {α : Type} (p : AviationStackPayload α) :
    Except FetchError (JsonField α) :=
  match p.error with
  | some e => .error (.providerError (jsOrS e.message (jsOrS e.code "Unknown error")))
  | none =>
    if p.data.truthy = false then .ok (.arrv [])
    else .ok p.data

/-! ## Time-window and search derivation engine -/

/-- The arrivals/departures switch of src/App.tsx. -/
inductive DisplayMode where
  | arrivals
  | departures
deriving DecidableEq, Repr

/-- Reference time of a record, App.tsx lines 66 to 68: the estimated instant
when truthy, else the scheduled one; `none` when both are falsy. -/
def referenceTime (mode : DisplayMode) (f : FlightData) : Option Int :=
  match mode with
  | .arrivals => jsOrOpt f.arrival.estimated f.arrival.scheduled
  | .departures => jsOrOpt f.departure.estimated f.departure.scheduled

/-- The window test of App.tsx lines 70 to 73: a falsy reference time is
rejected, otherwise the closed interval test runs on the instant. -/
def windowPred (mode : DisplayMode) (rangeStart rangeEnd : Int) (f : FlightData) : Bool :=
  match referenceTime mode f with
  | none => false
  | some t => decide (rangeStart ≤ t) && decide (t ≤ rangeEnd)

/-- Sort key of App.tsx lines 77 to 81. The comparator only ever runs on
records that passed the window filter, where the reference time is present;
`0` stands in for the unreachable falsy branch. -/
def sortKeyTime (mode : DisplayMode) (f : FlightData) : Int :=
  match referenceTime mode f with
  | some t => t
  | none => 0

/-- Search predicate of App.tsx lines 86 to 92: case-insensitive substring
match of the term against flight IATA code, flight number, departure airport,
arrival airport and airline name, the same five fields in both modes. -/
def searchMatches (searchTerm : String) (f : FlightData) : Bool :=
  let search := jsToLower searchTerm
  jsIncludes (jsToLower (jsOrStr f.flight.iata "")) search ||
  jsIncludes (jsToLower (jsOrStr f.flight.number "")) search ||
  jsIncludes (jsToLower (jsOrStr f.departure.airport "")) search ||
  jsIncludes (jsToLower (jsOrStr f.arrival.airport "")) search ||
  jsIncludes (jsToLower (jsOrStr f.airline.name "")) search

/-- The displayedFlights memo of src/App.tsx lines 55 to 96: time filter
with a 60-minute look-back, stable ascending sort by reference time, then
the text filter when the search term is non-empty. -/
def displayedFlights (allFlights : List FlightData) (now : Int) (timeRange : Int)
    (mode : DisplayMode) (searchTerm : String) : List FlightData :=
  if allFlights.isEmpty then [] else
  let rangeEnd := now + timeRange * 60 * 60 * 1000
  let rangeStart := now - 60 * 60 * 1000
  let filtered := allFlights.filter (windowPred mode rangeStart rangeEnd)
  let sorted := filtered.mergeSort
    (fun a b => decide (sortKeyTime mode a ≤ sortKeyTime mode b))
  if searchTerm = "" then sorted else sorted.filter (searchMatches searchTerm)

/-- Search predicate of the earlier engine variant, src/unnamed/part_000
lines 69 to 74: same fields except that the arrival airport is not searched. -/
def legacySearchMatches (searchTerm : String) (f : FlightData) : Bool :=
  let search := jsToLower searchTerm
  jsIncludes (jsToLower (jsOrStr f.flight.iata "")) search ||
  jsIncludes (jsToLower (jsOrStr f.flight.number "")) search ||
  jsIncludes (jsToLower (jsOrStr f.departure.airport "")) search ||
  jsIncludes (jsToLower (jsOrStr f.airline.name "")) search

/-- The displayedFlights memo of the earlier variant, src/unnamed/part_000
lines 45 to 78: arrivals only, and the look-back is 30 minutes, not 60. -/
def legacyDisplayedFlights (allFlights : List FlightData) (now : Int) (timeRange : Int)
    (searchTerm : String) : List FlightData :=
  if allFlights.isEmpty then [] else
  let rangeEnd := now + timeRange * 60 * 60 * 1000
  let rangeStart := now - 30 * 60 * 1000
  let filtered := allFlights.filter (windowPred .arrivals rangeStart rangeEnd)
  let sorted := filtered.mergeSort
    (fun a b => decide (sortKeyTime .arrivals a ≤ sortKeyTime .arrivals b))
  if searchTerm = "" then sorted else sorted.filter (legacySearchMatches searchTerm)

/-! ## Live-marker reconciliation (MapView) -/

/-- The marker key, MapView.tsx line 57: `flight.flight.iata || flight.flight.number`. -/
def flightKey (f : FlightData) : String :=
  jsOrStr f.flight.iata f.flight.number

/-- The filter of MapView.tsx line 52:
`f.live && f.live.latitude && f.live.longitude` — live telemetry present and
truthy (non-zero) latitude and longitude. -/
def usableLive (f : FlightData) : Bool :=
  match f.live with
  | none => false
  | some l => jsTruthyNum l.latitude && jsTruthyNum l.longitude

/-- The data interpolated into one popup, MapView.tsx lines 81 to 104. -/
structure PopupContent where
  flightId : String
  airlineName : String
  fromText : String
  altitude : Int
  speed : Int
deriving DecidableEq, Repr

/-- One Leaflet marker as the reconciliation observes it: position, icon
rotation, popup content, plus a creation tag that changes only when a marker
is recreated (so reuse versus churn is visible in the model). -/
structure MarkerHandle where
  tag : Nat
  lat : Option Int
  lng : Option Int
  iconRotation : Int
  popup : Option PopupContent
deriving DecidableEq, Repr

/-- What one pass over a flight writes into its marker: `setLatLng`,
`setIcon` (rotation `dir - 45`) and the popup content. -/
structure MarkerWrite where
  lat : Option Int
  lng : Option Int
  iconRotation : Int
  popup : PopupContent
deriving DecidableEq, Repr

/-- The write derived from one flight with live telemetry, MapView.tsx
lines 56 to 104. -/
def markerWriteOf (f : FlightData) (l : LiveTelemetry) : MarkerWrite :=
  { lat := l.latitude
    lng := l.longitude
    iconRotation := jsOrI l.direction 0 - 45
    popup :=
      { flightId := flightKey f
        airlineName := f.airline.name
        fromText := jsOrStr f.departure.airport f.departure.iata
        altitude := jsOrI l.altitude 0
        speed := jsOrI l.speedHorizontal 0 } }

/-- Updating an existing marker in place, MapView.tsx lines 106 to 113:
position, icon and, when a popup is bound, its content; the tag is kept. -/
def applyWrite (m : MarkerHandle) (w : MarkerWrite) : MarkerHandle :=
  { m with
    lat := w.lat
    lng := w.lng
    iconRotation := w.iconRotation
    popup :=
      match m.popup with
      | some _ => some w.popup
      | none => none }

/-- A freshly created marker, MapView.tsx lines 114 to 121: `bindPopup` is
always called, so the popup is present. -/
def newMarker (tag : Nat) (w : MarkerWrite) : MarkerHandle :=
  { tag := tag
    lat := w.lat
    lng := w.lng
    iconRotation := w.iconRotation
    popup := some w.popup }

/-- The mutable component state: the `markersRef` table keyed by flight id,
plus the allocation counter that makes marker identity observable. -/
@[ext] structure MarkerState where
  markers : String → Option MarkerHandle
  nextTag : Nat

/-- The state before the component ever processed a snapshot: `markersRef`
starts as the empty object. -/
def initialMarkerState : MarkerState :=
  { markers := fun _ => none, nextTag := 0 }

/-- One iteration of the `activeFlights.forEach` loop, MapView.tsx lines 54
to 122: nothing when `flight.live` is absent; else update the marker owned
by the flight id in place, or create and register a new one. -/
def applyMarkerStep (st : MarkerState) (f : FlightData) : MarkerState :=
  match f.live with
  | none => st
  | some l =>
    match st.markers (flightKey f) with
    | some m =>
      { st with markers := fun k =>
          if k = flightKey f then some (applyWrite m (markerWriteOf f l)) else st.markers k }
    | none =>
      { markers := fun k =>
          if k = flightKey f then some (newMarker st.nextTag (markerWriteOf f l)) else st.markers k
        nextTag := st.nextTag + 1 }

/-- Identifiers with usable live telemetry in a snapshot, the
`validFlightIds` set of MapView.tsx. -/
def activeIds (flights : List FlightData) : List String :=
  (flights.filter usableLive).map flightKey

/-- One full run of the marker effect, MapView.tsx lines 44 to 132: select
the flights with usable live telemetry, upsert their markers in order, then
remove every marker whose id is not among the valid ids. -/
def reconcileSnapshot (st : MarkerState) (flights : List FlightData) : MarkerState :=
  { markers := fun k =>
      if (activeIds flights).contains k then
        ((flights.filter usableLive).foldl applyMarkerStep st).markers k
      else none
    nextTag := ((flights.filter usableLive).foldl applyMarkerStep st).nextTag }

/-! ## Statements of the spec side, for comparison with the code -/

/-- The status token table in the priority order the code implements:
first match wins, default SCHEDULED. -/
def statusTokenTable : List (String × FlightStatus) :=
  [("landed", .LANDED), ("cancelled", .CANCELLED), ("diverted", .DIVERTED),
   ("estimated", .ACTIVE), ("delayed", .ACTIVE), ("active", .ACTIVE)]

/-- Status mapping stated as an ordered token scan over `statusTokenTable`. -/
def prioritizedStatus (raw : String) : FlightStatus :=
  match statusTokenTable.find? (fun p => jsIncludes (jsToLower raw) p.1) with
  | some p => p.2
  | none => .SCHEDULED

/-- Modelled from the words of claim C1: the same mapping with the token
`departed` also sent to ACTIVE, as the claim asserts. -/
def claimStatusMapping (raw : String) : FlightStatus :=
  let t := jsToLower raw
  if jsIncludes t "landed" then .LANDED
  else if jsIncludes t "cancelled" then .CANCELLED
  else if jsIncludes t "diverted" then .DIVERTED
  else if jsIncludes t "estimated" || jsIncludes t "delayed"
       || jsIncludes t "active" || jsIncludes t "departed" then .ACTIVE
  else .SCHEDULED

/-- Modelled from the words of claim C5: the search fields with the arrival
airport consulted only in departures mode. -/
def claimSearchMatches (mode : DisplayMode) (searchTerm : String) (f : FlightData) : Bool :=
  let search := jsToLower searchTerm
  jsIncludes (jsToLower (jsOrStr f.flight.iata "")) search ||
  jsIncludes (jsToLower (jsOrStr f.flight.number "")) search ||
  jsIncludes (jsToLower (jsOrStr f.departure.airport "")) search ||
  (decide (mode = .departures) && jsIncludes (jsToLower (jsOrStr f.arrival.airport "")) search) ||
  jsIncludes (jsToLower (jsOrStr f.airline.name "")) search

/-- Modelled from the words of claim C6: identifiers of records with live
telemetry and defined (possibly zero) latitude and longitude. -/
def claimActiveIds (flights : List FlightData) : List String :=
  (flights.filter (fun f =>
    match f.live with
    | some l => l.latitude.isSome && l.longitude.isSome
    | none => false)).map flightKey

/-! ## Concrete inputs used by witnesses and counterexamples -/

/-- A raw time block with every field absent. -/
def blankTimes : RawTimes :=
  { scheduledArrival := none
    scheduledDeparture := none
    estimatedArrival := none
    estimatedDeparture := none
    realArrival := none
    realDeparture := none
    otherEta := none }

/-- A raw item with every field absent. -/
def blankRaw : RawFlight :=
  { statusText := none
    time := blankTimes
    originCity := none
    originName := none
    originIata := none
    originIcao := none
    originTzName := none
    originTerminal := none
    originGate := none
    destTerminal := none
    destGate := none
    destBaggage := none
    airlineName := none
    airlineIata := none
    airlineIcao := none
    identNumber := none
    codeshare := none
    aircraftRegistration := none
    aircraftModelCode := none }

/-- Raw item whose status text is the literal word Departed. -/
def rawDeparted : RawFlight :=
  { blankRaw with statusText := some "Departed" }

/-- Raw item matching the end-to-end example of the spec: estimated arrival
600 seconds after the scheduled one. -/
def rawTenLate : RawFlight :=
  { blankRaw with
    statusText := some "Estimated Landing 10min late"
    time := { blankTimes with scheduledArrival := some 60, estimatedArrival := some 660 } }

/-- Raw item whose departure estimate is strictly later than its departure
schedule (660 seconds later). -/
def rawDepLate : RawFlight :=
  { blankRaw with
    time := { blankTimes with scheduledDeparture := some 60, estimatedDeparture := some 720 } }

/-- A canonical endpoint with empty code fields and no times. -/
def blankEndpoint : EndpointInfo :=
  { airport := ""
    timezone := ""
    iata := ""
    icao := ""
    terminal := none
    gate := none
    baggage := none
    delay := none
    scheduled := none
    estimated := none
    actual := none }

/-- A canonical record with empty fields throughout. -/
def blankFlight : FlightData :=
  { flightDate := 0
    flightStatus := .SCHEDULED
    departure := blankEndpoint
    arrival := blankEndpoint
    airline := { name := "", iata := "", icao := "" }
    flight := { number := "", iata := "", icao := "", codeshared := none }
    aircraft := { registration := "", iata := "", icao := "", icao24 := "" }
    live := none }

/-- A record whose reference time is the epoch instant, as the normalizer
produces from absent provider timestamps. -/
def epochFlight : FlightData :=
  { blankFlight with arrival := { blankEndpoint with estimated := some 0, scheduled := some 0 } }

/-- A record arriving at instant 3600000 whose only field containing the
letters z-u-r is the arrival airport name. -/
def zurichBoundFlight : FlightData :=
  { blankFlight with
    arrival := { blankEndpoint with airport := "Zurich", estimated := some 3600000 }
    departure := { blankEndpoint with airport := "Basel" }
    flight := { number := "QQ2", iata := "QQ1", icao := "", codeshared := none }
    airline := { name := "Qline", iata := "", icao := "" } }

/-- A record with live telemetry whose latitude is the defined value 0,
which is falsy in JavaScript. -/
def equatorFlight : FlightData :=
  { blankFlight with
    flight := { number := "EQ1", iata := "EQ1", icao := "", codeshared := none }
    live := some
      { latitude := some 0
        longitude := some 5
        direction := some 90
        altitude := some 10000
        speedHorizontal := some 800 } }

/-! ## General lemmas about the derivation engine -/

/-- The window test holds exactly when the reference time is present and
lies in the closed interval. -/
theorem windowPred_iff (mode : DisplayMode) (a b : Int) (f : FlightData) :
    windowPred mode a b f = true ↔
      ∃ t, referenceTime mode f = some t ∧ a ≤ t ∧ t ≤ b := by
  unfold windowPred
  cases h : referenceTime mode f <;> simp

/-- Membership in the displayed list of the main engine: the input membership
and the window test, plus the text test when the term is non-empty. -/
theorem mem_displayedFlights (flights : List FlightData) (now timeRange : Int)
    (mode : DisplayMode) (term : String) (f : FlightData) :
    f ∈ displayedFlights flights now timeRange mode term ↔
      f ∈ flights ∧
      windowPred mode (now - 60 * 60 * 1000) (now + timeRange * 60 * 60 * 1000) f = true ∧
      (term = "" ∨ searchMatches term f = true) := by
  unfold displayedFlights
  by_cases he : flights.isEmpty
  · rw [if_pos he]
    rw [List.isEmpty_iff] at he
    subst he
    simp
  · rw [if_neg he]
    by_cases ht : term = ""
    · rw [if_pos ht]
      simp [List.mem_mergeSort, List.mem_filter, ht]
    · rw [if_neg ht]
      simp only [List.mem_filter, List.mem_mergeSort]
      constructor
      · rintro ⟨⟨hmem, hw⟩, hs⟩
        exact ⟨hmem, hw, Or.inr hs⟩
      · rintro ⟨hmem, hw, hs⟩
        rcases hs with hs | hs
        · exact absurd hs ht
        · exact ⟨⟨hmem, hw⟩, hs⟩

/-- Membership in the displayed list of the earlier engine variant. -/
theorem mem_legacyDisplayedFlights (flights : List FlightData) (now timeRange : Int)
    (term : String) (f : FlightData) :
    f ∈ legacyDisplayedFlights flights now timeRange term ↔
      f ∈ flights ∧
      windowPred .arrivals (now - 30 * 60 * 1000) (now + timeRange * 60 * 60 * 1000) f = true ∧
      (term = "" ∨ legacySearchMatches term f = true) := by
  unfold legacyDisplayedFlights
  by_cases he : flights.isEmpty
  · rw [if_pos he]
    rw [List.isEmpty_iff] at he
    subst he
    simp
  · rw [if_neg he]
    by_cases ht : term = ""
    · rw [if_pos ht]
      simp [List.mem_mergeSort, List.mem_filter, ht]
    · rw [if_neg ht]
      simp only [List.mem_filter, List.mem_mergeSort]
      constructor
      · rintro ⟨⟨hmem, hw⟩, hs⟩
        exact ⟨hmem, hw, Or.inr hs⟩
      · rintro ⟨hmem, hw, hs⟩
        rcases hs with hs | hs
        · exact absurd hs ht
        · exact ⟨⟨hmem, hw⟩, hs⟩

/-! ## General lemmas about the marker reconciliation -/

/-- The last write a snapshot pass performs at a given key: the write of the
last flight in the list that has live telemetry and that key. -/
def lastWriteFor (k : String) : List FlightData → Option MarkerWrite
  | [] => none
  | f :: rest =>
    match lastWriteFor k rest with
    | some w => some w
    | none =>
      match f.live with
      | some l => if flightKey f = k then some (markerWriteOf f l) else none
      | none => none

/-- Overwriting a marker twice leaves only the second write. -/
theorem applyWrite_applyWrite (m : MarkerHandle) (w1 w2 : MarkerWrite) :
    applyWrite (applyWrite m w1) w2 = applyWrite m w2 := by
  cases m with
  | mk tag lat lng rot popup => cases popup <;> rfl

/-- Overwriting a fresh marker keeps its tag and takes the new write. -/
theorem applyWrite_newMarker (t : Nat) (w1 w2 : MarkerWrite) :
    applyWrite (newMarker t w1) w2 = newMarker t w2 := rfl

/-- A step leaves every key other than the key of its flight unchanged. -/
theorem applyMarkerStep_markers_ne (st : MarkerState) (f : FlightData) (k : String)
    (h : ∀ l, f.live = some l → flightKey f ≠ k) :
    (applyMarkerStep st f).markers k = st.markers k := by
  unfold applyMarkerStep
  cases hl : f.live with
  | none => rfl
  | some l =>
    have hk : ¬(k = flightKey f) := fun he => h l hl he.symm
    cases hm : st.markers (flightKey f) <;> simp [hk]

/-- A fold over flights none of which writes a key leaves that key unchanged. -/
theorem foldl_markers_untouched (active : List FlightData) (st : MarkerState) (k : String)
    (h : ∀ f ∈ active, ∀ l, f.live = some l → flightKey f ≠ k) :
    ((active.foldl applyMarkerStep st).markers k) = st.markers k := by
  induction active generalizing st with
  | nil => rfl
  | cons f rest ih =>
    rw [List.foldl_cons]
    rw [ih (applyMarkerStep st f) (fun g hg => h g (List.mem_cons_of_mem f hg))]
    exact applyMarkerStep_markers_ne st f k (h f (List.mem_cons_self f rest))

/-- When a list has no write at a key, no flight of the list writes it. -/
theorem lastWriteFor_eq_none (k : String) :
    ∀ active : List FlightData, lastWriteFor k active = none →
      ∀ f ∈ active, ∀ l, f.live = some l → flightKey f ≠ k := by
  intro active
  induction active with
  | nil => intro _ f hf; simp at hf
  | cons f rest ih =>
    intro h g hg l hl hk
    unfold lastWriteFor at h
    cases hr : lastWriteFor k rest with
    | some w => simp [hr] at h
    | none =>
      simp only [hr] at h
      rcases List.mem_cons.mp hg with rfl | hg2
      · simp [hl, hk] at h
      · exact ih hr g hg2 l hl hk

/-- The fold at a key that starts occupied: the result is the starting
marker overwritten by the last write, tag kept. -/
theorem foldl_markers_lastWrite (k : String) (w : MarkerWrite) :
    ∀ (active : List FlightData) (st : MarkerState) (m0 : MarkerHandle),
      lastWriteFor k active = some w → st.markers k = some m0 →
      ((active.foldl applyMarkerStep st).markers k) = some (applyWrite m0 w) := by
  intro active
  induction active with
  | nil => intro st m0 hw _; unfold lastWriteFor at hw; simp at hw
  | cons f rest ih =>
    intro st m0 hw hm
    rw [List.foldl_cons]
    unfold lastWriteFor at hw
    cases hr : lastWriteFor k rest with
    | some w2 =>
      rw [hr] at hw
      injection hw with hww
      subst hww
      by_cases hfk : ∃ l, f.live = some l ∧ flightKey f = k
      · obtain ⟨l, hl, hk⟩ := hfk
        have hstep : (applyMarkerStep st f).markers k
            = some (applyWrite m0 (markerWriteOf f l)) := by
          simp [applyMarkerStep, hl, hk, hm]
        have := ih (applyMarkerStep st f) (applyWrite m0 (markerWriteOf f l)) hr hstep
        rw [this, applyWrite_applyWrite]
      · push_neg at hfk
        have hstep : (applyMarkerStep st f).markers k = some m0 := by
          rw [applyMarkerStep_markers_ne st f k hfk]
          exact hm
        exact ih _ _ hr hstep
    | none =>
      simp only [hr] at hw
      cases hl : f.live with
      | none => simp [hl] at hw
      | some l =>
        simp only [hl] at hw
        by_cases hk : flightKey f = k
        · rw [if_pos hk] at hw
          injection hw with hww
          have hstep : (applyMarkerStep st f).markers k = some (applyWrite m0 w) := by
            simp [applyMarkerStep, hl, hk, hm, hww]
          rw [foldl_markers_untouched rest _ k (lastWriteFor_eq_none k rest hr), hstep]
        · rw [if_neg hk] at hw; simp at hw

/-- The fold at a key that starts empty: the result is a freshly created
marker carrying the last write. -/
theorem foldl_markers_lastWrite_new (k : String) (w : MarkerWrite) :
    ∀ (active : List FlightData) (st : MarkerState),
      lastWriteFor k active = some w → st.markers k = none →
      ∃ t, ((active.foldl applyMarkerStep st).markers k) = some (newMarker t w) := by
  intro active
  induction active with
  | nil => intro st hw _; unfold lastWriteFor at hw; simp at hw
  | cons f rest ih =>
    intro st hw hm
    rw [List.foldl_cons]
    unfold lastWriteFor at hw
    cases hr : lastWriteFor k rest with
    | some w2 =>
      rw [hr] at hw
      injection hw with hww
      subst hww
      by_cases hfk : ∃ l, f.live = some l ∧ flightKey f = k
      · obtain ⟨l, hl, hk⟩ := hfk
        have hstep : (applyMarkerStep st f).markers k
            = some (newMarker st.nextTag (markerWriteOf f l)) := by
          simp [applyMarkerStep, hl, hk, hm]
        refine ⟨st.nextTag, ?_⟩
        have := foldl_markers_lastWrite k w2 rest (applyMarkerStep st f)
          (newMarker st.nextTag (markerWriteOf f l)) hr hstep
        rw [this, applyWrite_newMarker]
      · push_neg at hfk
        have hstep : (applyMarkerStep st f).markers k = none := by
          rw [applyMarkerStep_markers_ne st f k hfk]
          exact hm
        exact ih _ hr hstep
    | none =>
      simp only [hr] at hw
      cases hl : f.live with
      | none => simp [hl] at hw
      | some l =>
        simp only [hl] at hw
        by_cases hk : flightKey f = k
        · rw [if_pos hk] at hw
          injection hw with hww
          have hstep : (applyMarkerStep st f).markers k
              = some (newMarker st.nextTag w) := by
            simp [applyMarkerStep, hl, hk, hm, hww]
          exact ⟨st.nextTag,
            by rw [foldl_markers_untouched rest _ k (lastWriteFor_eq_none k rest hr), hstep]⟩
        · rw [if_neg hk] at hw; simp at hw

/-- A step never clears a key that holds a marker. -/
theorem applyMarkerStep_isSome (st : MarkerState) (f : FlightData) (k : String)
    (h : (st.markers k).isSome = true) :
    ((applyMarkerStep st f).markers k).isSome = true := by
  unfold applyMarkerStep
  cases hl : f.live with
  | none => exact h
  | some l =>
    by_cases hk : k = flightKey f
    · cases hm : st.markers (flightKey f) <;> simp [hk]
    · cases hm : st.markers (flightKey f) <;> simp [hk, h]

/-- When every live flight of the list already owns a marker, the fold
creates nothing, so the allocation counter does not move. -/
theorem foldl_nextTag_of_present (active : List FlightData) :
    ∀ st : MarkerState,
      (∀ f ∈ active, ∀ l, f.live = some l → (st.markers (flightKey f)).isSome = true) →
      ((active.foldl applyMarkerStep st).nextTag) = st.nextTag := by
  induction active with
  | nil => intro st _; rfl
  | cons f rest ih =>
    intro st h
    rw [List.foldl_cons]
    have htag : (applyMarkerStep st f).nextTag = st.nextTag := by
      unfold applyMarkerStep
      cases hl : f.live with
      | none => rfl
      | some l =>
        cases hm : st.markers (flightKey f) with
        | some m => rfl
        | none =>
          have := h f (List.mem_cons_self f rest) l hl
          rw [hm] at this
          simp at this
    rw [ih (applyMarkerStep st f) ?_, htag]
    intro g hg l hl
    exact applyMarkerStep_isSome st f (flightKey g) (h g (List.mem_cons_of_mem f hg) l hl)

/-- A key among the keys of an all-live list receives a write. -/
theorem lastWriteFor_of_mem (k : String) :
    ∀ active : List FlightData,
      (∀ f ∈ active, f.live.isSome = true) →
      k ∈ active.map flightKey →
      ∃ w, lastWriteFor k active = some w := by
  intro active
  induction active with
  | nil => intro _ hk; simp at hk
  | cons f rest ih =>
    intro hall hk
    unfold lastWriteFor
    cases hr : lastWriteFor k rest with
    | some w => exact ⟨w, rfl⟩
    | none =>
      rw [List.map_cons] at hk
      rcases List.mem_cons.mp hk with hkf | hkr
      · cases hl : f.live with
        | none =>
          have := hall f (List.mem_cons_self f rest)
          rw [hl] at this
          simp at this
        | some l => exact ⟨markerWriteOf f l, by simp [hkf.symm]⟩
      · obtain ⟨w, hw⟩ := ih (fun g hg => hall g (List.mem_cons_of_mem f hg)) hkr
        rw [hw] at hr
        simp at hr

/-- Usable live telemetry implies the live block is present. -/
theorem usableLive_isSome (f : FlightData) (h : usableLive f = true) :
    f.live.isSome = true := by
  unfold usableLive at h
  cases hl : f.live with
  | none => rw [hl] at h; simp at h
  | some l => simp

/-- Every flight the reconciliation selects has a present live block. -/
theorem filtered_live_isSome (flights : List FlightData) :
    ∀ f ∈ flights.filter usableLive, f.live.isSome = true :=
  fun f hf => usableLive_isSome f (List.mem_filter.mp hf).2

/-- The reconciliation removes every key outside the valid id set. -/
theorem reconcile_markers_of_not_mem (st : MarkerState) (flights : List FlightData)
    (k : String) (h : k ∉ activeIds flights) :
    (reconcileSnapshot st flights).markers k = none := by
  show (if (activeIds flights).contains k then _ else none) = none
  rw [if_neg (by simpa using h)]

/-- The reconciliation at a valid key that starts occupied: the old marker
survives, overwritten by the last write of the snapshot at that key. -/
theorem reconcile_markers_eq_over (st : MarkerState) (flights : List FlightData)
    (k : String) (w : MarkerWrite) (m0 : MarkerHandle)
    (hw : lastWriteFor k (flights.filter usableLive) = some w)
    (hmem : k ∈ activeIds flights) (hm : st.markers k = some m0) :
    (reconcileSnapshot st flights).markers k = some (applyWrite m0 w) := by
  show (if (activeIds flights).contains k then
      ((flights.filter usableLive).foldl applyMarkerStep st).markers k else none) = _
  rw [if_pos (by simpa using hmem)]
  exact foldl_markers_lastWrite k w (flights.filter usableLive) st m0 hw hm

/-- The reconciliation at a valid key that starts empty: a fresh marker
carrying the last write of the snapshot at that key. -/
theorem reconcile_markers_eq_new (st : MarkerState) (flights : List FlightData)
    (k : String) (w : MarkerWrite)
    (hw : lastWriteFor k (flights.filter usableLive) = some w)
    (hmem : k ∈ activeIds flights) (hm : st.markers k = none) :
    ∃ t, (reconcileSnapshot st flights).markers k = some (newMarker t w) := by
  obtain ⟨t, ht⟩ := foldl_markers_lastWrite_new k w (flights.filter usableLive) st hw hm
  refine ⟨t, ?_⟩
  show (if (activeIds flights).contains k then
      ((flights.filter usableLive).foldl applyMarkerStep st).markers k else none) = _
  rw [if_pos (by simpa using hmem)]
  exact ht

/-- The reconciliation holds a marker exactly at the valid ids. -/
theorem reconcile_markers_isSome_of_mem (st : MarkerState) (flights : List FlightData)
    (k : String) (h : k ∈ activeIds flights) :
    ((reconcileSnapshot st flights).markers k).isSome = true := by
  obtain ⟨w, hw⟩ :=
    lastWriteFor_of_mem k (flights.filter usableLive) (filtered_live_isSome flights) h
  cases hm : st.markers k with
  | some m0 => rw [reconcile_markers_eq_over st flights k w m0 hw h hm]; rfl
  | none =>
    obtain ⟨t, ht⟩ := reconcile_markers_eq_new st flights k w hw h hm
    rw [ht]
    rfl

/-- The allocation counter of a reconciled state does not move when the same
snapshot is processed again. -/
theorem reconcile_nextTag_stable (st : MarkerState) (flights : List FlightData) :
    (reconcileSnapshot (reconcileSnapshot st flights) flights).nextTag
      = (reconcileSnapshot st flights).nextTag := by
  show ((flights.filter usableLive).foldl applyMarkerStep (reconcileSnapshot st flights)).nextTag = _
  apply foldl_nextTag_of_present
  intro f hf l _
  apply reconcile_markers_isSome_of_mem
  exact List.mem_map_of_mem flightKey hf

/-- Processing the same snapshot twice yields the same component state. -/
theorem reconcileSnapshot_idem (st : MarkerState) (flights : List FlightData) :
    reconcileSnapshot (reconcileSnapshot st flights) flights = reconcileSnapshot st flights := by
  apply MarkerState.ext
  · funext k
    by_cases hk : k ∈ activeIds flights
    · obtain ⟨w, hw⟩ :=
        lastWriteFor_of_mem k (flights.filter usableLive) (filtered_live_isSome flights) hk
      cases hm : st.markers k with
      | some m0 =>
        have h1 := reconcile_markers_eq_over st flights k w m0 hw hk hm
        have h2 := reconcile_markers_eq_over (reconcileSnapshot st flights) flights k w
          (applyWrite m0 w) hw hk h1
        rw [h2, applyWrite_applyWrite, h1]
      | none =>
        obtain ⟨t, h1⟩ := reconcile_markers_eq_new st flights k w hw hk hm
        have h2 := reconcile_markers_eq_over (reconcileSnapshot st flights) flights k w
          (newMarker t w) hw hk h1
        rw [h2, applyWrite_newMarker, h1]
    · rw [reconcile_markers_of_not_mem _ flights k hk,
          reconcile_markers_of_not_mem st flights k hk]
  · exact reconcile_nextTag_stable st flights

/-! ## Remaining shared lemmas -/

/-- Defaulting an empty-string alternative is the identity. -/
theorem jsOrStr_empty (a : String) : jsOrStr a "" = a := by
  by_cases h : a = "" <;> simp [jsOrStr, h]

/-- The if-chain status mapping of the code agrees with the ordered
token-table scan. -/
theorem normalizeStatus_eq_prioritized (s : String) :
    normalizeStatus s = prioritizedStatus s := by
  simp only [normalizeStatus, prioritizedStatus, statusTokenTable]
  cases h1 : jsIncludes (jsToLower s) "landed" <;>
  cases h2 : jsIncludes (jsToLower s) "cancelled" <;>
  cases h3 : jsIncludes (jsToLower s) "diverted" <;>
  cases h4 : jsIncludes (jsToLower s) "estimated" <;>
  cases h5 : jsIncludes (jsToLower s) "delayed" <;>
  cases h6 : jsIncludes (jsToLower s) "active" <;>
  simp [List.find?, h1, h2, h3, h4, h5, h6]

/-! ## The claims -/

/-- C1, corrected: the normalizer maps the free-text status by lower-casing
and matching substrings in the fixed priority order landed, cancelled,
diverted, then estimated / delayed / active to ACTIVE, default SCHEDULED,
first match wins; the token departed is NOT mapped (the claim listed it);
the example text Estimated Landing 10min late still normalizes to ACTIVE. -/
theorem c1_status_mapping :
    (∀ f : RawFlight,
        (normalizeFlight f).flightStatus = prioritizedStatus (jsOrS f.statusText "")) ∧
    (normalizeFlight rawTenLate).flightStatus = FlightStatus.ACTIVE := by
  constructor
  · intro f
    exact normalizeStatus_eq_prioritized (jsOrS f.statusText "")
  · decide

/-- C1 counterexample: on the status text Departed the mapping the claim
states yields ACTIVE while the code yields SCHEDULED, because the code never
tests the token departed. -/
theorem c1_counterexample :
    claimStatusMapping "Departed" = FlightStatus.ACTIVE ∧
    (normalizeFlight rawDeparted).flightStatus = FlightStatus.SCHEDULED :=
  ⟨by decide, by decide⟩

/-- C2, confirmed: for every raw item the normalized arrival delay equals
the rounded minute difference of the stored arrival instants when the
estimated one is strictly later, is null otherwise, and is never negative. -/
theorem c2_arrival_delay (f : RawFlight) (e s : Int)
    (he : (normalizeFlight f).arrival.estimated = some e)
    (hs : (normalizeFlight f).arrival.scheduled = some s) :
    ((normalizeFlight f).arrival.delay
        = if s < e then some ((e - s + 30000).fdiv 60000) else none) ∧
    (e ≤ s → (normalizeFlight f).arrival.delay = none) ∧
    (∀ d : Int, (normalizeFlight f).arrival.delay = some d → 0 ≤ d) := by
  injection he with he
  injection hs with hs
  subst he
  subst hs
  refine ⟨rfl, ?_, ?_⟩
  · intro hle
    show arrivalDelayMinutes f = none
    unfold arrivalDelayMinutes
    rw [if_neg (not_lt.mpr hle)]
  · intro d hd
    replace hd : arrivalDelayMinutes f = some d := hd
    unfold arrivalDelayMinutes at hd
    by_cases hlt : estimatedArrMs f > scheduledArrMs f
    · rw [if_pos hlt] at hd
      injection hd with hd
      subst hd
      apply Int.fdiv_nonneg _ (by norm_num)
      omega
    · rw [if_neg hlt] at hd
      simp at hd

/-- C2 witness: the end-to-end example, scheduled 60 s, estimated 660 s,
yields the delay the theorem states (10 minutes). -/
theorem c2_arrival_delay_witness :
    (normalizeFlight rawTenLate).arrival.delay
      = if (60000 : Int) < 660000 then
          some (((660000 : Int) - 60000 + 30000).fdiv 60000)
        else none :=
  (c2_arrival_delay rawTenLate 660000 60000 (by decide) (by decide)).1

/-- C3, corrected: the arrivals normalizer never computes a departure-side
delay; the departure delay of every normalized record is null, even when the
departure estimate is strictly later than the departure schedule. -/
theorem c3_departure_delay (f : RawFlight) :
    (normalizeFlight f).departure.delay = none := rfl

/-- C3 counterexample: a raw item whose departure estimate is 660 seconds
later than its departure schedule still gets a null departure delay, where
the claim demands the rounded positive difference. -/
theorem c3_counterexample :
    (normalizeFlight rawDepLate).departure.estimated = some 720000 ∧
    (normalizeFlight rawDepLate).departure.scheduled = some 60000 ∧
    (normalizeFlight rawDepLate).departure.delay = none :=
  ⟨by decide, by decide, rfl⟩

/-- C4, corrected: both engine variants keep exactly the records whose
reference time lies in a closed interval ending at now plus windowHours, and
endpoints are included; but the look-back is 60 minutes only in the current
engine (App.tsx), while the earlier variant (part_000) looks back 30 minutes. -/
theorem c4_time_window :
    (∀ (flights : List FlightData) (now timeRange : Int) (mode : DisplayMode) (f : FlightData),
        f ∈ displayedFlights flights now timeRange mode "" ↔
          f ∈ flights ∧ ∃ t, referenceTime mode f = some t ∧
            now - 60 * 60 * 1000 ≤ t ∧ t ≤ now + timeRange * 60 * 60 * 1000) ∧
    (∀ (flights : List FlightData) (now timeRange : Int) (f : FlightData),
        f ∈ legacyDisplayedFlights flights now timeRange "" ↔
          f ∈ flights ∧ ∃ t, referenceTime .arrivals f = some t ∧
            now - 30 * 60 * 1000 ≤ t ∧ t ≤ now + timeRange * 60 * 60 * 1000) := by
  constructor
  · intro flights now tr mode f
    rw [mem_displayedFlights, windowPred_iff]
    simp
  · intro flights now tr f
    rw [mem_legacyDisplayedFlights, windowPred_iff]
    simp

/-- C4 counterexample: at now 3600000 a record with reference time 0, which
is exactly now minus 60 minutes, is kept by the current engine but dropped
by the earlier variant, whose look-back is only 30 minutes — refuting the
60-minute look-back in every variant. -/
theorem c4_counterexample :
    referenceTime .arrivals epochFlight = some 0 ∧
    legacyDisplayedFlights [epochFlight] 3600000 1 "" = [] ∧
    displayedFlights [epochFlight] 3600000 1 .arrivals "" = [epochFlight] := by
  refine ⟨rfl, ?_, ?_⟩
  · have h1 : List.filter (windowPred DisplayMode.arrivals 1800000 7200000) [epochFlight]
        = [] := by decide
    simp only [legacyDisplayedFlights]
    norm_num [h1, List.mergeSort_nil]
  · have h1 : List.filter (windowPred DisplayMode.arrivals 0 7200000) [epochFlight]
        = [epochFlight] := by decide
    simp only [displayedFlights]
    norm_num [h1, List.mergeSort_singleton]

/-- C5, corrected: a non-empty term filters the time-filtered records by a
case-insensitive substring match, applied after the time filter, and an
empty term filters nothing; but the main engine consults the arrival
airport name in both modes, not only in departures mode, while the earlier
variant never consults it. -/
theorem c5_search_fields :
    (∀ (flights : List FlightData) (now timeRange : Int) (mode : DisplayMode)
        (term : String) (f : FlightData), term ≠ "" →
        (f ∈ displayedFlights flights now timeRange mode term ↔
          f ∈ displayedFlights flights now timeRange mode "" ∧
          searchMatches term f = true)) ∧
    (∀ (term : String) (f : FlightData),
        searchMatches term f = true ↔
          (jsIncludes (jsToLower f.flight.iata) (jsToLower term) = true ∨
           jsIncludes (jsToLower f.flight.number) (jsToLower term) = true ∨
           jsIncludes (jsToLower f.departure.airport) (jsToLower term) = true ∨
           jsIncludes (jsToLower f.arrival.airport) (jsToLower term) = true ∨
           jsIncludes (jsToLower f.airline.name) (jsToLower term) = true)) ∧
    (∀ (flights : List FlightData) (now timeRange : Int) (term : String) (f : FlightData),
        term ≠ "" →
        (f ∈ legacyDisplayedFlights flights now timeRange term ↔
          f ∈ legacyDisplayedFlights flights now timeRange "" ∧
          legacySearchMatches term f = true)) := by
  refine ⟨?_, ?_, ?_⟩
  · intro flights now tr mode term f ht
    rw [mem_displayedFlights, mem_displayedFlights]
    simp [ht]
    tauto
  · intro term f
    simp [searchMatches, jsOrStr_empty]
    tauto
  · intro flights now tr term f ht
    rw [mem_legacyDisplayedFlights, mem_legacyDisplayedFlights]
    simp [ht]
    tauto

/-- C5 counterexample: in arrivals mode, a record whose only field containing
the term zur is the arrival airport name is kept by the engine, although the
field list of the claim (arrival airport only in departures mode) rejects it. -/
theorem c5_counterexample :
    claimSearchMatches .arrivals "zur" zurichBoundFlight = false ∧
    displayedFlights [zurichBoundFlight] 3600000 1 .arrivals "zur" = [zurichBoundFlight] := by
  refine ⟨by decide, ?_⟩
  have h1 : List.filter (windowPred DisplayMode.arrivals 0 7200000) [zurichBoundFlight]
      = [zurichBoundFlight] := by decide
  simp only [displayedFlights]
  norm_num [h1, List.mergeSort_singleton]
  decide

/-- C6, corrected: after any snapshot the marker table holds a handle exactly
at the identifiers of records with live telemetry and truthy (non-zero)
latitude and longitude — the code tests truthiness, not definedness —
handles of surviving identifiers keep their creation tag (reuse, not
recreation), and processing the same snapshot twice changes nothing. -/
theorem c6_marker_reconciliation :
    (∀ (st : MarkerState) (flights : List FlightData) (k : String),
        ((reconcileSnapshot st flights).markers k).isSome = true ↔ k ∈ activeIds flights) ∧
    (∀ (st : MarkerState) (flights : List FlightData) (k : String) (m0 : MarkerHandle),
        st.markers k = some m0 → k ∈ activeIds flights →
        ∃ m, (reconcileSnapshot st flights).markers k = some m ∧ m.tag = m0.tag) ∧
    (∀ (st : MarkerState) (flights : List FlightData),
        reconcileSnapshot (reconcileSnapshot st flights) flights
          = reconcileSnapshot st flights) := by
  refine ⟨?_, ?_, reconcileSnapshot_idem⟩
  · intro st flights k
    constructor
    · intro h
      by_contra hk
      rw [reconcile_markers_of_not_mem st flights k hk] at h
      simp at h
    · exact reconcile_markers_isSome_of_mem st flights k
  · intro st flights k m0 hm hk
    obtain ⟨w, hw⟩ := lastWriteFor_of_mem k _ (filtered_live_isSome flights) hk
    exact ⟨applyWrite m0 w, reconcile_markers_eq_over st flights k w m0 hw hk hm, rfl⟩

/-- C6 counterexample: a record at the equator, live telemetry with latitude
the defined value 0, is in the active set of the claim (defined latitude and
longitude) yet the code creates no handle for it, because 0 is falsy. -/
theorem c6_counterexample :
    "EQ1" ∈ claimActiveIds [equatorFlight] ∧
    (reconcileSnapshot initialMarkerState [equatorFlight]).markers "EQ1" = none :=
  ⟨by decide, by decide⟩

/-- C7, corrected: only the Flightradar24 adapter fails with the malformed
response error when the expected array is absent or not a list; the
AviationStack adapter instead returns an empty list when its data field is
absent or falsy, and returns the field unchecked when it is truthy. -/
theorem c7_malformed_handling :
    (∀ v : JsonField RawFlight, v.isArray = false →
        fetchArrivalsFr24 v = .error .malformedResponse) ∧
    (∀ d : JsonField Unit, d.truthy = false →
        fetchArrivalsAviationStack ⟨none, d⟩ = .ok (.arrv [])) ∧
    (∀ d : JsonField Unit, d.truthy = true →
        fetchArrivalsAviationStack ⟨none, d⟩ = .ok d) := by
  refine ⟨?_, ?_, ?_⟩
  · intro v hv
    unfold fetchArrivalsFr24
    rw [if_pos (by simp [hv])]
  · intro d hd
    unfold fetchArrivalsAviationStack
    rw [if_pos hd]
  · intro d hd
    unfold fetchArrivalsAviationStack
    rw [if_neg (by simp [hd])]

/-- C7 counterexample: an AviationStack payload with no data field makes the
adapter return the empty list, not a malformed response error. -/
theorem c7_counterexample :
    fetchArrivalsAviationStack
        ({ error := none, data := JsonField.absent } : AviationStackPayload Unit)
      = .ok (.arrv []) ∧
    fetchArrivalsAviationStack
        ({ error := none, data := JsonField.absent } : AviationStackPayload Unit)
      ≠ .error .malformedResponse :=
  ⟨rfl, fun h => Except.noConfusion h⟩

/-- C8, corrected: the normalized flight identifier (IATA, falling back to
the number) equals the identification number of the raw item and is
non-empty exactly when that number is present and non-empty; an absent
number yields empty strings in both fields, hence an empty key. -/
theorem c8_flight_identifier :
    (∀ (f : RawFlight) (s : String), f.identNumber = some s → s ≠ "" →
        flightKey (normalizeFlight f) = s ∧ flightKey (normalizeFlight f) ≠ "") ∧
    (∀ f : RawFlight, f.identNumber = none ∨ f.identNumber = some "" →
        (normalizeFlight f).flight.iata = "" ∧ (normalizeFlight f).flight.number = "" ∧
        flightKey (normalizeFlight f) = "") := by
  constructor
  · intro f s hid hs
    have : flightKey (normalizeFlight f) = s := by
      simp [flightKey, normalizeFlight, jsOrS, jsOrStr, hid, hs]
    exact ⟨this, this ▸ hs⟩
  · intro f hid
    rcases hid with hid | hid <;>
      simp [flightKey, normalizeFlight, jsOrS, jsOrStr, hid]

/-- C8 counterexample: a raw item with no identification number normalizes
to empty IATA and number fields, so its flight identifier is the empty
string, not a non-empty key. -/
theorem c8_counterexample :
    flightKey (normalizeFlight blankRaw) = "" ∧
    (normalizeFlight blankRaw).flight.iata = "" ∧
    (normalizeFlight blankRaw).flight.number = "" :=
  ⟨by decide, by decide, by decide⟩

/-- C9, corrected: the engine excludes every record whose reference time is
null or falsy; but a normalizer-produced epoch-zero instant is stored as a
truthy ISO string, so such records are excluded only by the window test,
which needs now to be more than 60 minutes past the epoch — not for every
current instant as the claim states. -/
theorem c9_falsy_reference_time :
    (∀ (flights : List FlightData) (now timeRange : Int) (mode : DisplayMode)
        (term : String) (f : FlightData), referenceTime mode f = none →
        f ∉ displayedFlights flights now timeRange mode term) ∧
    (∀ (g : RawFlight) (flights : List FlightData) (now timeRange : Int) (term : String),
        estimatedArrMs g = 0 → 60 * 60 * 1000 < now →
        normalizeFlight g ∉ displayedFlights flights now timeRange .arrivals term) := by
  constructor
  · intro flights now tr mode term f href hmem
    rw [mem_displayedFlights] at hmem
    obtain ⟨-, hw, -⟩ := hmem
    rw [windowPred_iff] at hw
    obtain ⟨t, ht, -⟩ := hw
    rw [href] at ht
    simp at ht
  · intro g flights now tr term h0 hnow hmem
    rw [mem_displayedFlights] at hmem
    obtain ⟨-, hw, -⟩ := hmem
    rw [windowPred_iff] at hw
    obtain ⟨t, ht, hlb, -⟩ := hw
    have hrt : referenceTime .arrivals (normalizeFlight g) = some (estimatedArrMs g) := rfl
    rw [hrt, h0] at ht
    injection ht with ht
    subst ht
    omega

/-- C9 counterexample: the normalizer output of an item with every timestamp
absent has the epoch-zero reference instant, and at now 3600000 the engine
displays it — the claim says it never appears for any now. -/
theorem c9_counterexample :
    estimatedArrMs blankRaw = 0 ∧
    displayedFlights [normalizeFlight blankRaw] 3600000 1 .arrivals ""
      = [normalizeFlight blankRaw] := by
  refine ⟨rfl, ?_⟩
  have h1 : List.filter (windowPred DisplayMode.arrivals 0 7200000) [normalizeFlight blankRaw]
      = [normalizeFlight blankRaw] := by decide
  simp only [displayedFlights]
  norm_num [h1, List.mergeSort_singleton]

/-- C10, confirmed: every record of the schedule-endpoint normalizer has no
live telemetry; a snapshot of normalizer output therefore selects no active
flight, and after processing it the marker table is empty at every key and
no marker was ever created (the allocation counter is unchanged). -/
theorem c10_live_null_reconciliation :
    (∀ f : RawFlight, (normalizeFlight f).live = none) ∧
    (∀ (st : MarkerState) (items : List RawFlight),
        (items.map normalizeFlight).filter usableLive = [] ∧
        (∀ k, (reconcileSnapshot st (items.map normalizeFlight)).markers k = none) ∧
        (reconcileSnapshot st (items.map normalizeFlight)).nextTag = st.nextTag) := by
  have hfil : ∀ items : List RawFlight, (items.map normalizeFlight).filter usableLive = [] := by
    intro items
    rw [List.filter_eq_nil_iff]
    intro a ha
    obtain ⟨g, hg, rfl⟩ := List.mem_map.mp ha
    have hl : (normalizeFlight g).live = none := rfl
    simp [usableLive, hl]
  refine ⟨fun f => rfl, fun st items => ⟨hfil items, ?_, ?_⟩⟩
  · intro k
    apply reconcile_markers_of_not_mem
    unfold activeIds
    rw [hfil items]
    simp
  · show (((items.map normalizeFlight).filter usableLive).foldl applyMarkerStep st).nextTag
      = st.nextTag
    rw [hfil items]
    rfl

end FlightTracker
